import Mathlib

/-!
Shallow embedding of the updatectl reconciliation engine (src/main.go) and
proofs about its per-project pass, its scheduler loop and its on-demand
build command.  External effects (filesystem stat, git pull, shell build,
pm2 restart) are supplied by an environment of response functions, and every
observable action of a run is recorded in a trace.
-/

set_option autoImplicit false

namespace Updatectl

/-- One configured project, mirroring the `Project` struct (src/main.go:20-26). -/
structure Project where
  name : String
  path : String
  repo : String
  type : String
  buildCommand : String
deriving DecidableEq, Repr

/-- Result of running `git -C path pull` and collecting its combined output
(src/main.go:243-244): either the combined output on success, or the Go
error text together with the combined output on failure. -/
inductive PullResult where
  | success (output : String)
  | failure (errMsg : String) (output : String)
deriving DecidableEq, Repr

/-- Environment of responses from the outside world: whether a path exists
(`os.Stat`), the result of a pull at a path, the error (if any) of running a
build command in a directory, and the error (if any) of a pm2 restart. -/
structure Env where
  pathExists : String → Bool
  pullResult : String → PullResult
  buildErr : String → String → Option String
  pm2Err : String → Option String

/-- Trace of the externally observable actions of a run: paths pulled, build
commands run (command, working directory), pm2 restarts issued (process
name), entries into the type dispatch switch (type, project name), and the
console lines printed by the program itself. -/
structure Trace where
  pulls : List String
  builds : List (String × String)
  pm2Restarts : List String
  dispatches : List (String × String)
  log : List String
deriving DecidableEq, Repr

/-- Exit point taken by one `updateProject` call (src/main.go:236-275):
early return on missing path, early return on pull error, early return on
the no-op marker, or fall-through to the end of the function. -/
inductive Outcome where
  | pathMissing
  | syncFailed (errMsg : String)
  | noChange
  | completed
deriving DecidableEq, Repr

/-- Whether the character list starts with the pattern. -/
def matchAt : List Char → List Char → Bool
  | [], _ => true
  | _ :: _, [] => false
  | p :: ps, c :: cs => p == c && matchAt ps cs

/-- Whether the pattern occurs in the character list (at any position). -/
def charsHave (pat : List Char) : List Char → Bool
  | [] => pat.isEmpty
  | c :: cs => matchAt pat (c :: cs) || charsHave pat cs

/-- Embedding of Go `strings.Contains` (used at src/main.go:251). -/
def strContains (s pat : String) : Bool :=
  charsHave pat.data s.data

/-- The literal no-op marker tested at src/main.go:251. -/
def markerText : String := "Already up to date."

/-- Embedding of `runBuildCommand` (src/main.go:223-234): runs the command
through the shell in the given directory; `none` means success, `some e`
means the interpreter returned the error `e`.  Output streams are inherited
by the daemon and are not part of the returned value. -/
def runBuildCommand (e : Env) (command dir : String) : Option String :=
  e.buildErr command dir

/-- Embedding of the type switch at src/main.go:261-274.  Returns the pm2
restarts issued and the console lines printed.  The error of the pm2
restart (src/main.go:267) is discarded by the source. -/
def dispatchStep (e : Env) (p : Project) : List String × List String :=
  if p.type == "pm2" then
    let _restartErr := e.pm2Err p.name
    ([p.name], ["→ Restarting PM2 process: " ++ p.name])
  else if p.type == "docker" then
    ([], [])
  else if p.type == "static" then
    ([], [])
  else
    ([], ["Unknown type: " ++ p.type])

/-- Embedding of `updateProject` (src/main.go:236-275).  Mirrors the source
control flow: stat the path, pull, test the output for the no-op marker,
run the build command when non-empty (its error, src/main.go:258, is
discarded by the source), then the type dispatch switch. -/
def updateProject (e : Env) (p : Project) : Outcome × Trace :=
  if e.pathExists p.path then
    match e.pullResult p.path with
    | PullResult.failure errMsg _output =>
      (Outcome.syncFailed errMsg,
        { pulls := [p.path], builds := [], pm2Restarts := [], dispatches := [],
          log := ["→ Pulling latest changes for " ++ p.name,
                  "Git pull failed: " ++ errMsg] })
    | PullResult.success output =>
      if strContains output markerText then
        (Outcome.noChange,
          { pulls := [p.path], builds := [], pm2Restarts := [], dispatches := [],
            log := ["→ Pulling latest changes for " ++ p.name, output,
                    "No new commits for " ++ p.name] })
      else
        let buildPart :=
          if p.buildCommand == "" then
            (([] : List (String × String)), ([] : List String))
          else
            let _buildRes := runBuildCommand e p.buildCommand p.path
            ([(p.buildCommand, p.path)], ["→ Running build command for " ++ p.name])
        let d := dispatchStep e p
        (Outcome.completed,
          { pulls := [p.path], builds := buildPart.1, pm2Restarts := d.1,
            dispatches := [(p.type, p.name)],
            log := ["→ Pulling latest changes for " ++ p.name, output]
                    ++ buildPart.2 ++ d.2 })
  else
    (Outcome.pathMissing,
      { pulls := [], builds := [], pm2Restarts := [], dispatches := [],
        log := ["Path not found: " ++ p.path] })

/-- Outcomes of one watch pass (src/main.go:166-169): the inner loop of the
daemon runs `updateProject` once per configured project, in order. -/
def passOutcomes (e : Env) (ps : List Project) : List (String × Outcome) :=
  ps.map (fun p => (p.name, (updateProject e p).1))

/-- Console lines of one watch pass (src/main.go:166-169): a Checking line
per project followed by the lines of its `updateProject` call. -/
def passLog (e : Env) : List Project → List String
  | [] => []
  | p :: rest => ("Checking " ++ p.name) :: ((updateProject e p).2.log ++ passLog e rest)

/-- Start time of pass `n` of the watch loop (src/main.go:165-171): pass `n`
runs for `dur n` time units, then the loop sleeps the full `interval`
before the next pass begins. -/
def passStart (interval : Nat) (dur : Nat → Nat) : Nat → Nat
  | 0 => 0
  | n + 1 => passStart interval dur n + dur n + interval

/-- Result of the on-demand `build` subcommand (src/main.go:175-202). -/
inductive BuildCmdResult where
  | notFound
  | noBuildCommand
  | buildFailed (errMsg : String)
  | buildCompleted
deriving DecidableEq, Repr

/-- Handling of one matched project by the `build` subcommand: the body of
the if at src/main.go:184-198. -/
def buildCmdOnProject (e : Env) (projectName : String) (p : Project) :
    BuildCmdResult × Trace :=
  if p.buildCommand == "" then
    (BuildCmdResult.noBuildCommand,
      { pulls := [], builds := [], pm2Restarts := [], dispatches := [],
        log := ["No build command configured for project " ++ projectName] })
  else
    match runBuildCommand e p.buildCommand p.path with
    | some errMsg =>
      (BuildCmdResult.buildFailed errMsg,
        { pulls := [], builds := [(p.buildCommand, p.path)], pm2Restarts := [],
          dispatches := [],
          log := ["Building project " ++ projectName ++ "...",
                  "Build failed for " ++ projectName ++ ": " ++ errMsg] })
    | none =>
      (BuildCmdResult.buildCompleted,
        { pulls := [], builds := [(p.buildCommand, p.path)], pm2Restarts := [],
          dispatches := [],
          log := ["Building project " ++ projectName ++ "...",
                  "Build completed for " ++ projectName] })

/-- Embedding of the `build` subcommand loop (src/main.go:183-200): scan the
configured projects in order; the first one whose name matches is handled
and the loop returns; if none matches, report not found. -/
def buildCmdRun (e : Env) (projectName : String) : List Project → BuildCmdResult × Trace
  | [] =>
    (BuildCmdResult.notFound,
      { pulls := [], builds := [], pm2Restarts := [], dispatches := [],
        log := ["Project " ++ projectName ++ " not found in configuration"] })
  | p :: rest =>
    if p.name == projectName then buildCmdOnProject e projectName p
    else buildCmdRun e projectName rest

/-- Selection by first configuration entry with the given name, stated with
`List.find?`; used to compare `buildCmdRun` against a by-name selection
policy. -/
def buildCmdFirstMatch (e : Env) (projectName : String) : Option Project → BuildCmdResult × Trace
  | none =>
    (BuildCmdResult.notFound,
      { pulls := [], builds := [], pm2Restarts := [], dispatches := [],
        log := ["Project " ++ projectName ++ " not found in configuration"] })
  | some p => buildCmdOnProject e projectName p

/-- Combined output of a pull that fast-forwarded the working copy. -/
def pullChangedOut : String := "Updating 1a2b..3c4d Fast-forward"

/-- Environment where every path exists, every pull fast-forwards, and every
build and restart succeeds. -/
def envBuildOk : Env :=
  { pathExists := fun _ => true,
    pullResult := fun _ => PullResult.success pullChangedOut,
    buildErr := fun _ _ => none,
    pm2Err := fun _ => none }

/-- Environment identical to `envBuildOk` except that every build command
exits with status 2. -/
def envBuildFail : Env :=
  { pathExists := fun _ => true,
    pullResult := fun _ => PullResult.success pullChangedOut,
    buildErr := fun _ _ => some "exit status 2",
    pm2Err := fun _ => none }

/-- Environment identical to `envBuildOk` except that every pm2 restart
exits with status 1. -/
def envPm2Fail : Env :=
  { pathExists := fun _ => true,
    pullResult := fun _ => PullResult.success pullChangedOut,
    buildErr := fun _ _ => none,
    pm2Err := fun _ => some "exit status 1" }

/-- Environment where every pull reports the no-op marker. -/
def envUpToDate : Env :=
  { pathExists := fun _ => true,
    pullResult := fun _ => PullResult.success "Already up to date.",
    buildErr := fun _ _ => none,
    pm2Err := fun _ => none }

/-- Environment where every pull fails with an exec error and some combined
output from git. -/
def envPullFail : Env :=
  { pathExists := fun _ => true,
    pullResult := fun _ => PullResult.failure "exit status 128" "fatal: unable to access remote",
    buildErr := fun _ _ => none,
    pm2Err := fun _ => none }

/-- Environment where no path exists. -/
def envMissing : Env :=
  { pathExists := fun _ => false,
    pullResult := fun _ => PullResult.success pullChangedOut,
    buildErr := fun _ _ => none,
    pm2Err := fun _ => none }

/-- Docker project with a build command. -/
def demoDocker : Project :=
  { name := "site", path := "/srv/site", repo := "r",
    type := "docker", buildCommand := "docker compose up -d --build" }

/-- Pm2 project with a build command. -/
def demoPm2 : Project :=
  { name := "api", path := "/srv/api", repo := "r",
    type := "pm2", buildCommand := "npm run build" }

/-- Pm2 project without a build command. -/
def demoWorker : Project :=
  { name := "worker", path := "/srv/worker", repo := "r",
    type := "pm2", buildCommand := "" }

/-- Static project without a build command. -/
def demoStatic : Project :=
  { name := "blog", path := "/srv/blog", repo := "r",
    type := "static", buildCommand := "" }

/-- Project with an unrecognized type string. -/
def demoVm : Project :=
  { name := "vm1", path := "/srv/vm1", repo := "r",
    type := "vm", buildCommand := "" }

/-- Docker project used for pull-failure scenarios. -/
def demoApp : Project :=
  { name := "app", path := "/srv/app", repo := "r",
    type := "docker", buildCommand := "make" }

/-- Project whose name does not occur in its path. -/
def demoWeb : Project :=
  { name := "frontend", path := "/srv/www", repo := "r",
    type := "docker", buildCommand := "make site" }

/-- First of two projects sharing the name app2. -/
def dupOne : Project :=
  { name := "app2", path := "/first", repo := "r",
    type := "static", buildCommand := "make one" }

/-- Second of two projects sharing the name app2. -/
def dupTwo : Project :=
  { name := "app2", path := "/second", repo := "r",
    type := "static", buildCommand := "make two" }

/-- C2: in a reconciliation pass whose pull succeeds, change detection
inspects the textual output of the pull: if the output contains the literal
no-op marker, the outcome is NoChange and neither build nor dispatch is
invoked, even when buildCommand is non-empty; if the marker is absent, the
project is treated as changed and reaches the dispatch switch. -/
theorem c2_marker_decides_change (e : Env) (p : Project) (out : String)
    (hpath : e.pathExists p.path = true)
    (hpull : e.pullResult p.path = PullResult.success out) :
    (strContains out markerText = true →
      (updateProject e p).1 = Outcome.noChange
        ∧ (updateProject e p).2.builds = []
        ∧ (updateProject e p).2.dispatches = []
        ∧ (updateProject e p).2.pm2Restarts = [])
    ∧ (strContains out markerText = false →
      (updateProject e p).1 = Outcome.completed
        ∧ (updateProject e p).2.dispatches = [(p.type, p.name)]) := by
  unfold updateProject
  rw [hpath, hpull]
  constructor
  · intro hm
    simp [hm]
  · intro hm
    simp [hm]

/-- Witness for C2 at a concrete project with a non-empty buildCommand and a
pull output equal to the no-op marker. -/
theorem c2_witness :
    (updateProject envUpToDate demoDocker).1 = Outcome.noChange
      ∧ (updateProject envUpToDate demoDocker).2.builds = []
      ∧ (updateProject envUpToDate demoDocker).2.dispatches = []
      ∧ (updateProject envUpToDate demoDocker).2.pm2Restarts = [] :=
  (c2_marker_decides_change envUpToDate demoDocker "Already up to date."
    rfl rfl).1 (by decide)

/-- C3: when the configured path does not exist, the reconciler yields
PathMissing and performs no pull, no build, no dispatch and no restart. -/
theorem c3_path_missing_stops_pass (e : Env) (p : Project)
    (h : e.pathExists p.path = false) :
    (updateProject e p).1 = Outcome.pathMissing
      ∧ (updateProject e p).2.pulls = []
      ∧ (updateProject e p).2.builds = []
      ∧ (updateProject e p).2.dispatches = []
      ∧ (updateProject e p).2.pm2Restarts = [] := by
  unfold updateProject
  rw [h]
  simp

/-- Witness for C3 at a concrete project in the environment where no path
exists. -/
theorem c3_witness :
    (updateProject envMissing demoDocker).1 = Outcome.pathMissing
      ∧ (updateProject envMissing demoDocker).2.pulls = []
      ∧ (updateProject envMissing demoDocker).2.builds = []
      ∧ (updateProject envMissing demoDocker).2.dispatches = []
      ∧ (updateProject envMissing demoDocker).2.pm2Restarts = [] :=
  c3_path_missing_stops_pass envMissing demoDocker rfl

/-- C4: when the pull reports a change, a non-empty buildCommand is run
exactly once with that command string and the project path as working
directory, and an empty buildCommand skips the build and goes straight to
the dispatch switch. -/
theorem c4_build_exactly_configured (e : Env) (p : Project) (out : String)
    (hpath : e.pathExists p.path = true)
    (hpull : e.pullResult p.path = PullResult.success out)
    (hch : strContains out markerText = false) :
    (p.buildCommand ≠ "" →
      (updateProject e p).2.builds = [(p.buildCommand, p.path)])
    ∧ (p.buildCommand = "" →
      (updateProject e p).2.builds = []
        ∧ (updateProject e p).2.dispatches = [(p.type, p.name)]) := by
  unfold updateProject
  rw [hpath, hpull]
  constructor
  · intro hb
    have hb2 : (p.buildCommand == "") = false := by
      simpa using hb
    simp [hch, hb2]
  · intro hb
    simp [hch, hb]

/-- Witness for C4 at a project with a non-empty buildCommand and at a
project with an empty buildCommand. -/
theorem c4_witness :
    (updateProject envBuildOk demoPm2).2.builds = [("npm run build", "/srv/api")]
      ∧ (updateProject envBuildOk demoVm).2.builds = []
      ∧ (updateProject envBuildOk demoVm).2.dispatches = [("vm", "vm1")] :=
  ⟨(c4_build_exactly_configured envBuildOk demoPm2 pullChangedOut rfl rfl
      (by decide)).1 (by decide),
   ((c4_build_exactly_configured envBuildOk demoVm pullChangedOut rfl rfl
      (by decide)).2 rfl).1,
   ((c4_build_exactly_configured envBuildOk demoVm pullChangedOut rfl rfl
      (by decide)).2 rfl).2⟩

/-- Counterexample to C1 as stated: a failing build leaves no record at all.
With the same project, an environment whose build fails with exit status 2
produces an outcome, trace and console log identical to those of an
environment whose build succeeds, even though the build was invoked. -/
theorem c1_counterexample :
    updateProject envBuildFail demoDocker = updateProject envBuildOk demoDocker
      ∧ (updateProject envBuildFail demoDocker).2.builds
          = [("docker compose up -d --build", "/srv/site")]
      ∧ envBuildFail.buildErr "docker compose up -d --build" "/srv/site"
          = some "exit status 2"
      ∧ envBuildOk.buildErr "docker compose up -d --build" "/srv/site" = none :=
  ⟨rfl, by decide, rfl, rfl⟩

/-- C1 (amended): for every project whose sync reports a change, the type
dispatch switch is entered exactly once, regardless of whether the build
command succeeded, failed, or was empty; the build failure is ignored (it
leaves no record in the outcome, trace or log) and does not prevent
dispatch: the whole result depends only on the stat and pull responses. -/
theorem c1_dispatch_once_build_ignored (e eB : Env) (p : Project) (out : String)
    (hpath : e.pathExists p.path = true)
    (hpull : e.pullResult p.path = PullResult.success out)
    (hch : strContains out markerText = false)
    (hpe : eB.pathExists = e.pathExists)
    (hpr : eB.pullResult = e.pullResult) :
    (updateProject e p).2.dispatches = [(p.type, p.name)]
      ∧ updateProject eB p = updateProject e p := by
  constructor
  · unfold updateProject
    rw [hpath, hpull]
    simp [hch]
  · unfold updateProject dispatchStep runBuildCommand
    rw [hpe, hpr]

/-- Witness for the amended C1 at a concrete changed docker project under a
failing build, compared with a succeeding build. -/
theorem c1_witness :
    (updateProject envBuildFail demoDocker).2.dispatches = [("docker", "site")]
      ∧ updateProject envBuildOk demoDocker = updateProject envBuildFail demoDocker :=
  c1_dispatch_once_build_ignored envBuildFail envBuildOk demoDocker
    pullChangedOut rfl rfl (by decide) rfl rfl

/-- Counterexample to C5 as stated: on a pull failure the attached detail is
the exec error text, not the combined output of the command; the combined
output appears nowhere in the log. -/
theorem c5_counterexample :
    (updateProject envPullFail demoApp).1 = Outcome.syncFailed "exit status 128"
      ∧ envPullFail.pullResult "/srv/app"
          = PullResult.failure "exit status 128" "fatal: unable to access remote"
      ∧ ((updateProject envPullFail demoApp).2.log.any
          (fun s => strContains s "fatal: unable to access remote")) = false
      ∧ "exit status 128" ≠ "fatal: unable to access remote" :=
  ⟨rfl, rfl, by decide, by decide⟩

/-- C5 (amended): a pull failure is captured as a SyncFailed outcome carrying
the exec error text (the combined output of the pull is discarded), the
function returns normally, and the pass ends there: no build, no dispatch,
no restart, and the log holds exactly the pulling line and the failure
line. -/
theorem c5_sync_failure_absorbed (e : Env) (p : Project) (msg out : String)
    (hpath : e.pathExists p.path = true)
    (hpull : e.pullResult p.path = PullResult.failure msg out) :
    updateProject e p =
      (Outcome.syncFailed msg,
        { pulls := [p.path], builds := [], pm2Restarts := [], dispatches := [],
          log := ["→ Pulling latest changes for " ++ p.name,
                  "Git pull failed: " ++ msg] }) := by
  unfold updateProject
  rw [hpath, hpull]
  rfl

/-- Witness for the amended C5 at a concrete project whose pull fails. -/
theorem c5_witness :
    updateProject envPullFail demoApp =
      (Outcome.syncFailed "exit status 128",
        { pulls := ["/srv/app"], builds := [], pm2Restarts := [], dispatches := [],
          log := ["→ Pulling latest changes for app",
                  "Git pull failed: exit status 128"] }) :=
  c5_sync_failure_absorbed envPullFail demoApp "exit status 128"
    "fatal: unable to access remote" rfl rfl

/-- Counterexample to C6 as stated: with interval 10, a pass of duration 25
is followed by a pass starting at 35, not at 25 as soon as the pass ends;
and with a pass of duration 3 the second pass starts at 13, so the spacing
between consecutive starts is not the interval 10. -/
theorem c6_counterexample :
    passStart 10 (fun _ => 25) 1 = 35 ∧ (35 : Nat) ≠ 25
      ∧ passStart 10 (fun _ => 3) 1 = 13 ∧ (13 : Nat) ≠ 10 := by
  refine ⟨rfl, by decide, rfl, by decide⟩

/-- C6 (amended): the configured interval governs the spacing between the
end of one pass and the start of the next: every pass starts exactly one
full interval after the previous pass finishes, so passes never overlap,
and a pass of duration d delays the next start to d plus the interval. -/
theorem c6_interval_after_pass (interval : Nat) (dur : Nat → Nat) (n : Nat) :
    passStart interval dur (n + 1) = passStart interval dur n + dur n + interval
      ∧ passStart interval dur n + dur n ≤ passStart interval dur (n + 1) := by
  refine ⟨rfl, ?_⟩
  show passStart interval dur n + dur n ≤ passStart interval dur n + dur n + interval
  exact Nat.le_add_right _ _

/-- The build subcommand loop handles exactly the first configured project
whose name matches, and reports not found when none matches. -/
theorem buildCmdRun_eq_find (e : Env) (projectName : String) (ps : List Project) :
    buildCmdRun e projectName ps
      = buildCmdFirstMatch e projectName (ps.find? (fun p => p.name == projectName)) := by
  induction ps with
  | nil => rfl
  | cons p rest ih =>
    cases h : (p.name == projectName) with
    | true => simp [buildCmdRun, List.find?, h, buildCmdFirstMatch]
    | false => simp [buildCmdRun, List.find?, h, ih]

/-- Counterexample to C7 as stated: with two configured projects both named
app2, the on-demand build runs the build command of the first entry, not of
the last. -/
theorem c7_counterexample :
    (buildCmdRun envBuildOk "app2" [dupOne, dupTwo]).2.builds = [("make one", "/first")]
      ∧ ¬((buildCmdRun envBuildOk "app2" [dupOne, dupTwo]).2.builds
          = [("make two", "/second")]) :=
  ⟨by decide, by decide⟩

/-- C7 (amended): behavior on duplicate names is first-match-wins: the one
operation that selects a project by name, the on-demand build subcommand,
takes effect on the first configuration entry whose name matches. -/
theorem c7_first_match_wins (e : Env) (projectName : String) (ps : List Project) :
    buildCmdRun e projectName ps
      = buildCmdFirstMatch e projectName (ps.find? (fun p => p.name == projectName)) :=
  buildCmdRun_eq_find e projectName ps

/-- Counterexample to C9 as stated: a pm2 restart failure is not logged.
For the same pm2 project, an environment whose restart fails with exit
status 1 yields an outcome, trace and console log identical to those of an
environment whose restart succeeds, although the restart was issued. -/
theorem c9_counterexample :
    updateProject envPm2Fail demoWorker = updateProject envBuildOk demoWorker
      ∧ (updateProject envPm2Fail demoWorker).2.pm2Restarts = ["worker"]
      ∧ envPm2Fail.pm2Err "worker" = some "exit status 1"
      ∧ envBuildOk.pm2Err "worker" = none :=
  ⟨rfl, rfl, rfl, rfl⟩

/-- C9 (amended): the dispatch switch is total over the type set: for pm2 it
issues exactly one restart using the project name and a restart failure is
ignored (the result does not depend on the environment at all) and does not
fail the pass; for docker and static it performs no action; for every
unrecognized type it reports an unknown-type line, attempts no action, and
the pass over the remaining projects continues. -/
theorem c9_dispatch_total (e : Env) (p : Project) :
    (p.type = "pm2" →
      dispatchStep e p = ([p.name], ["→ Restarting PM2 process: " ++ p.name]))
    ∧ (p.type = "docker" ∨ p.type = "static" → dispatchStep e p = ([], []))
    ∧ (p.type ≠ "pm2" → p.type ≠ "docker" → p.type ≠ "static" →
      dispatchStep e p = ([], ["Unknown type: " ++ p.type]))
    ∧ (∀ eB : Env, dispatchStep eB p = dispatchStep e p)
    ∧ (∀ rest : List Project,
        passOutcomes e (p :: rest)
          = (p.name, (updateProject e p).1) :: passOutcomes e rest) := by
  refine ⟨?_, ?_, ?_, ?_, ?_⟩
  · intro ht
    simp [dispatchStep, ht]
  · rintro (ht | ht) <;> simp [dispatchStep, ht]
  · intro h1 h2 h3
    have b1 : (p.type == "pm2") = false := by simpa using h1
    have b2 : (p.type == "docker") = false := by simpa using h2
    have b3 : (p.type == "static") = false := by simpa using h3
    simp [dispatchStep, b1, b2, b3]
  · intro eB
    rfl
  · intro rest
    rfl

/-- Witness for the amended C9 at a pm2 project, a docker project and a
project of unrecognized type vm. -/
theorem c9_witness :
    dispatchStep envBuildOk demoPm2 = (["api"], ["→ Restarting PM2 process: api"])
      ∧ dispatchStep envBuildOk demoDocker = ([], [])
      ∧ dispatchStep envBuildOk demoVm = ([], ["Unknown type: vm"]) :=
  ⟨(c9_dispatch_total envBuildOk demoPm2).1 rfl,
   (c9_dispatch_total envBuildOk demoDocker).2.1 (Or.inl rfl),
   (c9_dispatch_total envBuildOk demoVm).2.2.1 (by decide) (by decide) (by decide)⟩

/-- The build subcommand never records a pull, a dispatch entry or a pm2
restart, whichever way the selected project is handled. -/
theorem buildCmdFirstMatch_no_side (e : Env) (projectName : String) (o : Option Project) :
    (buildCmdFirstMatch e projectName o).2.pulls = []
      ∧ (buildCmdFirstMatch e projectName o).2.dispatches = []
      ∧ (buildCmdFirstMatch e projectName o).2.pm2Restarts = [] := by
  cases o with
  | none => exact ⟨rfl, rfl, rfl⟩
  | some p =>
    unfold buildCmdFirstMatch buildCmdOnProject
    cases hb : (p.buildCommand == "") with
    | true => simp [hb]
    | false =>
      cases hr : runBuildCommand e p.buildCommand p.path <;> simp [hb, hr]

/-- C10: the on-demand build subcommand runs only the configured build
command of the first project with the given name: its result depends only
on the build responses (so no path check, no pull and no restart can
influence it), its trace holds no pull, no dispatch entry and no restart;
when no project matches it reports not found with no build, when the
matched project has an empty buildCommand it reports that with no build,
and otherwise it runs exactly that command in that project path. -/
theorem c10_build_only (e eB : Env) (projectName : String) (ps : List Project)
    (hb : eB.buildErr = e.buildErr) :
    buildCmdRun eB projectName ps = buildCmdRun e projectName ps
      ∧ (buildCmdRun e projectName ps).2.pulls = []
      ∧ (buildCmdRun e projectName ps).2.dispatches = []
      ∧ (buildCmdRun e projectName ps).2.pm2Restarts = []
      ∧ (ps.find? (fun q => q.name == projectName) = none →
          (buildCmdRun e projectName ps).1 = BuildCmdResult.notFound
            ∧ (buildCmdRun e projectName ps).2.builds = [])
      ∧ (∀ p, ps.find? (fun q => q.name == projectName) = some p →
          p.buildCommand = "" →
          (buildCmdRun e projectName ps).1 = BuildCmdResult.noBuildCommand
            ∧ (buildCmdRun e projectName ps).2.builds = [])
      ∧ (∀ p, ps.find? (fun q => q.name == projectName) = some p →
          p.buildCommand ≠ "" →
          (buildCmdRun e projectName ps).2.builds = [(p.buildCommand, p.path)]) := by
  refine ⟨?_, ?_, ?_, ?_, ?_, ?_, ?_⟩
  · rw [buildCmdRun_eq_find, buildCmdRun_eq_find]
    cases hf : ps.find? (fun q => q.name == projectName) with
    | none => rfl
    | some p =>
      unfold buildCmdFirstMatch buildCmdOnProject runBuildCommand
      rw [hb]
  · rw [buildCmdRun_eq_find]
    exact (buildCmdFirstMatch_no_side e projectName _).1
  · rw [buildCmdRun_eq_find]
    exact (buildCmdFirstMatch_no_side e projectName _).2.1
  · rw [buildCmdRun_eq_find]
    exact (buildCmdFirstMatch_no_side e projectName _).2.2
  · intro hf
    rw [buildCmdRun_eq_find, hf]
    exact ⟨rfl, rfl⟩
  · intro p hf hbc
    rw [buildCmdRun_eq_find, hf]
    simp [buildCmdFirstMatch, buildCmdOnProject, hbc]
  · intro p hf hbc
    have hb2 : (p.buildCommand == "") = false := by simpa using hbc
    rw [buildCmdRun_eq_find, hf]
    cases hr : runBuildCommand e p.buildCommand p.path <;>
      simp [buildCmdFirstMatch, buildCmdOnProject, hb2, hr]

/-- Witness for C10 at a concrete two-project configuration: independence
from everything but the build responses, the not-found case, the empty
buildCommand case and the run case. -/
theorem c10_witness :
    buildCmdRun envPm2Fail "frontend" [demoWeb, demoStatic]
        = buildCmdRun envBuildOk "frontend" [demoWeb, demoStatic]
      ∧ (buildCmdRun envBuildOk "ghost" [demoWeb, demoStatic]).1 = BuildCmdResult.notFound
      ∧ (buildCmdRun envBuildOk "ghost" [demoWeb, demoStatic]).2.builds = []
      ∧ (buildCmdRun envBuildOk "blog" [demoWeb, demoStatic]).1 = BuildCmdResult.noBuildCommand
      ∧ (buildCmdRun envBuildOk "frontend" [demoWeb, demoStatic]).2.builds
          = [("make site", "/srv/www")]
      ∧ (buildCmdRun envBuildOk "frontend" [demoWeb, demoStatic]).2.pulls = [] :=
  ⟨(c10_build_only envBuildOk envPm2Fail "frontend" [demoWeb, demoStatic] rfl).1,
   ((c10_build_only envBuildOk envBuildOk "ghost" [demoWeb, demoStatic] rfl).2.2.2.2.1
      (by decide)).1,
   ((c10_build_only envBuildOk envBuildOk "ghost" [demoWeb, demoStatic] rfl).2.2.2.2.1
      (by decide)).2,
   ((c10_build_only envBuildOk envBuildOk "blog" [demoWeb, demoStatic] rfl).2.2.2.2.2.1
      demoStatic (by decide) rfl).1,
   (c10_build_only envBuildOk envBuildOk "frontend" [demoWeb, demoStatic] rfl).2.2.2.2.2.2
      demoWeb (by decide) (by decide),
   (c10_build_only envBuildOk envBuildOk "frontend" [demoWeb, demoStatic] rfl).2.1⟩

/-- Value of `updateProject` on the missing-path branch. -/
theorem updateProject_missing (e : Env) (p : Project)
    (h : e.pathExists p.path = false) :
    updateProject e p =
      (Outcome.pathMissing,
        { pulls := [], builds := [], pm2Restarts := [], dispatches := [],
          log := ["Path not found: " ++ p.path] }) := by
  unfold updateProject
  rw [h]
  rfl

/-- Value of `updateProject` on the pull-failure branch. -/
theorem updateProject_syncFailed (e : Env) (p : Project) (msg out : String)
    (hpath : e.pathExists p.path = true)
    (hpull : e.pullResult p.path = PullResult.failure msg out) :
    updateProject e p =
      (Outcome.syncFailed msg,
        { pulls := [p.path], builds := [], pm2Restarts := [], dispatches := [],
          log := ["→ Pulling latest changes for " ++ p.name,
                  "Git pull failed: " ++ msg] }) := by
  unfold updateProject
  rw [hpath, hpull]
  rfl

/-- Value of `updateProject` on the no-op-marker branch. -/
theorem updateProject_noChange (e : Env) (p : Project) (out : String)
    (hpath : e.pathExists p.path = true)
    (hpull : e.pullResult p.path = PullResult.success out)
    (hm : strContains out markerText = true) :
    updateProject e p =
      (Outcome.noChange,
        { pulls := [p.path], builds := [], pm2Restarts := [], dispatches := [],
          log := ["→ Pulling latest changes for " ++ p.name, out,
                  "No new commits for " ++ p.name] }) := by
  unfold updateProject
  rw [hpath, hpull]
  simp [hm]

/-- Value of `updateProject` on the fall-through branch. -/
theorem updateProject_completed (e : Env) (p : Project) (out : String)
    (hpath : e.pathExists p.path = true)
    (hpull : e.pullResult p.path = PullResult.success out)
    (hm : strContains out markerText = false) :
    updateProject e p =
      (Outcome.completed,
        { pulls := [p.path],
          builds := if p.buildCommand == "" then [] else [(p.buildCommand, p.path)],
          pm2Restarts := (dispatchStep e p).1,
          dispatches := [(p.type, p.name)],
          log := ["→ Pulling latest changes for " ++ p.name, out]
                  ++ (if p.buildCommand == "" then []
                      else ["→ Running build command for " ++ p.name])
                  ++ (dispatchStep e p).2 }) := by
  unfold updateProject
  rw [hpath, hpull]
  simp [hm]
  by_cases hb : p.buildCommand = "" <;> simp [hb]

/-- Case split on the four exit branches of `updateProject`. -/
theorem updateProject_split (e : Env) (p : Project) :
    e.pathExists p.path = false
      ∨ (e.pathExists p.path = true
          ∧ ∃ msg out, e.pullResult p.path = PullResult.failure msg out)
      ∨ (e.pathExists p.path = true
          ∧ ∃ out, e.pullResult p.path = PullResult.success out
              ∧ strContains out markerText = true)
      ∨ (e.pathExists p.path = true
          ∧ ∃ out, e.pullResult p.path = PullResult.success out
              ∧ strContains out markerText = false) := by
  cases hpe : e.pathExists p.path with
  | false => exact Or.inl rfl
  | true =>
    cases hpr : e.pullResult p.path with
    | failure m o => exact Or.inr (Or.inl ⟨rfl, m, o, rfl⟩)
    | success o =>
      cases hm : strContains o markerText with
      | true => exact Or.inr (Or.inr (Or.inl ⟨rfl, o, rfl, hm⟩))
      | false => exact Or.inr (Or.inr (Or.inr ⟨rfl, o, rfl, hm⟩))

/-- Counterexample to C8 as stated: two outcomes are swallowed or lack the
project name.  A failing build yields a result identical to a succeeding
one, so the BuildFailed outcome produces no status line at all; a failing
pm2 restart likewise leaves no line; and the PathMissing line names only
the path, not the project name. -/
theorem c8_counterexample :
    updateProject envBuildFail demoApp = updateProject envBuildOk demoApp
      ∧ (updateProject envBuildFail demoApp).2.builds = [("make", "/srv/app")]
      ∧ envBuildFail.buildErr "make" "/srv/app" = some "exit status 2"
      ∧ updateProject envPm2Fail demoPm2 = updateProject envBuildOk demoPm2
      ∧ (updateProject envPm2Fail demoPm2).2.pm2Restarts = ["api"]
      ∧ envPm2Fail.pm2Err "api" = some "exit status 1"
      ∧ (updateProject envMissing demoWeb).2.log = ["Path not found: /srv/www"]
      ∧ strContains "Path not found: /srv/www" "frontend" = false :=
  ⟨rfl, by decide, rfl, rfl, by decide, rfl, by decide, by decide⟩

/-- C8 (amended): every exit of a reconciliation pass except a build or
restart failure writes a console status line with a short reason: the
missing-path line names the path, the pull-failure line names the error,
the no-change line and the restart line name the project, and an
unrecognized type produces an unknown-type line; a build or restart failure
leaves no record, since the whole result depends only on the stat and pull
responses. -/
theorem c8_status_lines (e : Env) (p : Project) :
    ((updateProject e p).1 = Outcome.pathMissing →
      ("Path not found: " ++ p.path) ∈ (updateProject e p).2.log)
    ∧ (∀ msg, (updateProject e p).1 = Outcome.syncFailed msg →
      ("Git pull failed: " ++ msg) ∈ (updateProject e p).2.log)
    ∧ ((updateProject e p).1 = Outcome.noChange →
      ("No new commits for " ++ p.name) ∈ (updateProject e p).2.log)
    ∧ ((updateProject e p).1 = Outcome.completed → p.type = "pm2" →
      ("→ Restarting PM2 process: " ++ p.name) ∈ (updateProject e p).2.log)
    ∧ ((updateProject e p).1 = Outcome.completed →
        p.type ≠ "pm2" → p.type ≠ "docker" → p.type ≠ "static" →
      ("Unknown type: " ++ p.type) ∈ (updateProject e p).2.log)
    ∧ (∀ eB : Env, eB.pathExists = e.pathExists → eB.pullResult = e.pullResult →
      updateProject eB p = updateProject e p) := by
  refine ⟨?_, ?_, ?_, ?_, ?_, ?_⟩
  · intro h
    rcases updateProject_split e p with hpe | ⟨hpe, m, o, hpr⟩
      | ⟨hpe, o, hpr, hm⟩ | ⟨hpe, o, hpr, hm⟩
    · simp [updateProject_missing e p hpe]
    · simp [updateProject_syncFailed e p m o hpe hpr] at h
    · simp [updateProject_noChange e p o hpe hpr hm] at h
    · simp [updateProject_completed e p o hpe hpr hm] at h
  · intro msg h
    rcases updateProject_split e p with hpe | ⟨hpe, m, o, hpr⟩
      | ⟨hpe, o, hpr, hm⟩ | ⟨hpe, o, hpr, hm⟩
    · simp [updateProject_missing e p hpe] at h
    · have hv := updateProject_syncFailed e p m o hpe hpr
      rw [hv] at h
      simp at h
      rw [hv, h]
      simp
    · simp [updateProject_noChange e p o hpe hpr hm] at h
    · simp [updateProject_completed e p o hpe hpr hm] at h
  · intro h
    rcases updateProject_split e p with hpe | ⟨hpe, m, o, hpr⟩
      | ⟨hpe, o, hpr, hm⟩ | ⟨hpe, o, hpr, hm⟩
    · simp [updateProject_missing e p hpe] at h
    · simp [updateProject_syncFailed e p m o hpe hpr] at h
    · simp [updateProject_noChange e p o hpe hpr hm]
    · simp [updateProject_completed e p o hpe hpr hm] at h
  · intro h ht
    rcases updateProject_split e p with hpe | ⟨hpe, m, o, hpr⟩
      | ⟨hpe, o, hpr, hm⟩ | ⟨hpe, o, hpr, hm⟩
    · simp [updateProject_missing e p hpe] at h
    · simp [updateProject_syncFailed e p m o hpe hpr] at h
    · simp [updateProject_noChange e p o hpe hpr hm] at h
    · simp [updateProject_completed e p o hpe hpr hm, dispatchStep, ht]
  · intro h h1 h2 h3
    have b1 : (p.type == "pm2") = false := by simpa using h1
    have b2 : (p.type == "docker") = false := by simpa using h2
    have b3 : (p.type == "static") = false := by simpa using h3
    rcases updateProject_split e p with hpe | ⟨hpe, m, o, hpr⟩
      | ⟨hpe, o, hpr, hm⟩ | ⟨hpe, o, hpr, hm⟩
    · simp [updateProject_missing e p hpe] at h
    · simp [updateProject_syncFailed e p m o hpe hpr] at h
    · simp [updateProject_noChange e p o hpe hpr hm] at h
    · simp [updateProject_completed e p o hpe hpr hm, dispatchStep, b1, b2, b3]
  · intro eB hpe hpr
    unfold updateProject dispatchStep runBuildCommand
    rw [hpe, hpr]

/-- Witness for the amended C8: each covered outcome produces its status
line at a concrete project and environment. -/
theorem c8_witness :
    ("Path not found: /srv/site" ∈ (updateProject envMissing demoDocker).2.log)
      ∧ ("Git pull failed: exit status 128" ∈ (updateProject envPullFail demoApp).2.log)
      ∧ ("No new commits for site" ∈ (updateProject envUpToDate demoDocker).2.log)
      ∧ ("→ Restarting PM2 process: api" ∈ (updateProject envBuildOk demoPm2).2.log)
      ∧ ("Unknown type: vm" ∈ (updateProject envBuildOk demoVm).2.log) :=
  ⟨(c8_status_lines envMissing demoDocker).1 rfl,
   (c8_status_lines envPullFail demoApp).2.1 "exit status 128" rfl,
   (c8_status_lines envUpToDate demoDocker).2.2.1 (by decide),
   (c8_status_lines envBuildOk demoPm2).2.2.2.1 (by decide) rfl,
   (c8_status_lines envBuildOk demoVm).2.2.2.2.1 (by decide) (by decide) (by decide)
     (by decide)⟩

end Updatectl
